import Mathlib

/-!
Verification of the AURA command-routing and execution-planning core.

Shallow embedding of the pipeline: intent classification (`intent_router.py`),
the confirmation sub-protocol and top-level routing (`aura_v2_bridge.py`),
goal-driven planning (`goal.py`, `strategy_planner.py`, `goal_router.py`),
plan execution (`plan_executor.py`), the persistent context store
(`context_engine.py`) and the multi-task scheduler (`multi_task_handler.py`).

Python strings are modelled as `List Char`; `str.lower`, `str.strip`,
`str.startswith`, the `in` substring test and `str.split()` are modelled
char-for-char below.
-/

abbrev Str := List Char

/-- Python `str.lower()` (ASCII). -/
def pyLower (s : Str) : Str := s.map Char.toLower

/-- Python `str.strip()`: drop whitespace at both ends. -/
def pyStrip (s : Str) : Str :=
  ((s.dropWhile Char.isWhitespace).reverse.dropWhile Char.isWhitespace).reverse

/-- Python `sub in hay` substring containment. -/
def containsSub (hay sub : Str) : Bool :=
  (List.range (hay.length + 1)).any (fun i => sub.isPrefixOf (hay.drop i))

/-- Builds `a ++ apostrophe ++ b`, used for source literals that contain `'`. -/
def aposJoin (a b : String) : Str := a.data ++ [Char.ofNat 39] ++ b.data

/-- A single apostrophe character. -/
def aposC : Str := [Char.ofNat 39]

/-- Python `str.split()`: split on whitespace runs, no empty words. -/
def splitWhitespace (s : Str) : List Str :=
  (s.foldr (fun c acc =>
    if c.isWhitespace then [] :: acc
    else match acc with
      | [] => [[c]]
      | w :: ws => (c :: w) :: ws) []).filter (fun w => w ≠ [])

namespace IntentRouter

/-- `MatchQuality(IntEnum)` from `intent_router.py`. -/
inductive MatchQuality
  | EXACT | SPECIFIC | GENERIC | KEYWORD | FUZZY
deriving DecidableEq

/-- `RouteResult` dataclass fields (`intent_router.py`). Argument values are
kept as strings; only their presence matters to the routing logic. -/
structure RouteResult where
  confidence : ℚ
  function : Option Str := none
  args : List (Str × Str) := []
  is_conversation : Bool := false
  match_type : Str := ("none").data
  match_quality : MatchQuality := .FUZZY
  raw_command : Str := []
  needs_code_generation : Bool := false
deriving DecidableEq

/-- `RouteResult.__post_init__`: the dataclass constructor clamps confidence
with `max(0.0, min(1.0, confidence))`. -/
def mkRouteResult (confidence : ℚ) (function : Option Str) (args : List (Str × Str))
    (is_conversation : Bool) (match_type : Str) (match_quality : MatchQuality)
    (raw_command : Str) (needs_code_generation : Bool) : RouteResult :=
  { confidence := max 0 (min 1 confidence)
    function := function
    args := args
    is_conversation := is_conversation
    match_type := match_type
    match_quality := match_quality
    raw_command := raw_command
    needs_code_generation := needs_code_generation }

/-- `conversation_starters` list in `IntentRouter._is_conversation`. -/
def conversation_starters : List Str :=
  [("what is").data, ("what are").data, aposJoin ("what") ("s"), ("who is").data,
   ("who are").data, ("why is").data, ("why are").data, ("how does").data,
   ("how do").data, ("can you explain").data, ("tell me about").data,
   ("explain").data, ("describe").data, ("teach me").data, ("compare").data,
   ("difference between").data, ("versus").data, ("vs").data]

/-- `action_exceptions` list in `IntentRouter._is_conversation`. -/
def action_exceptions : List Str :=
  [("what time").data, ("what date").data, aposJoin ("what") ("s the weather"),
   ("what is the time").data]

/-- `IntentRouter._is_conversation`: opener match (excluding action-shaped
exceptions), otherwise the long-question rule. -/
def is_conversation (command : Str) : Bool :=
  let command_lower := pyStrip (pyLower command)
  if conversation_starters.any (fun starter =>
      starter.isPrefixOf command_lower &&
      !(action_exceptions.any (fun exc => containsSub command_lower exc))) then
    true
  else if (("?").data).isSuffixOf command_lower &&
      decide (5 < (splitWhitespace command_lower).length) then
    true
  else
    false

end IntentRouter

/-- C8: RouteResult confidence clamping — for every RouteResult, whatever
confidence it is constructed with (including values above 1.0 or below 0.0),
the stored confidence after construction lies in [0.0, 1.0]. -/
theorem routeResult_confidence_clamped (c : ℚ) (f : Option Str) (a : List (Str × Str))
    (ic : Bool) (mt : Str) (mq : IntentRouter.MatchQuality) (rc : Str) (ncg : Bool) :
    0 ≤ (IntentRouter.mkRouteResult c f a ic mt mq rc ncg).confidence ∧
      (IntentRouter.mkRouteResult c f a ic mt mq rc ncg).confidence ≤ 1 := by
  constructor
  · exact le_max_left 0 _
  · exact max_le (by norm_num) (min_le_left 1 c)

/-- C6 (amended): a command whose lower-cased, stripped text begins with a
conversational opener and contains no action-exception substring is detected
as conversation; a command containing an action-exception substring is not
classified via the opener rule — it is conversation exactly when the
long-question rule fires (ends with a question mark and has more than five
words). -/
theorem is_conversation_openers (command : Str) :
    (IntentRouter.conversation_starters.any
        (fun st => st.isPrefixOf (pyStrip (pyLower command))) = true →
      IntentRouter.action_exceptions.any
        (fun exc => containsSub (pyStrip (pyLower command)) exc) = false →
      IntentRouter.is_conversation command = true) ∧
    (IntentRouter.action_exceptions.any
        (fun exc => containsSub (pyStrip (pyLower command)) exc) = true →
      IntentRouter.is_conversation command =
        (decide ((("?").data) <:+ pyStrip (pyLower command)) &&
          decide (5 < (splitWhitespace (pyStrip (pyLower command))).length))) := by
  constructor
  · intro hS hE
    simp only [IntentRouter.is_conversation, hE]
    simp [hS]
  · intro hE
    simp only [IntentRouter.is_conversation, hE]
    simp only [Bool.not_true, Bool.and_false, List.any_eq_true]
    simp

/-- Witness for `is_conversation_openers`: an opener command with no exception
is conversation; an opener command containing the exception "what is the time"
(short, no question mark) is not. -/
theorem is_conversation_openers_witness :
    IntentRouter.is_conversation (("tell me about jazz").data) = true ∧
    IntentRouter.is_conversation (("what is the time").data) = false :=
  ⟨(is_conversation_openers (("tell me about jazz").data)).1 (by decide) (by decide),
   ((is_conversation_openers (("what is the time").data)).2 (by decide)).trans (by decide)⟩

/-- C6 counterexample: "what is the time in new york right now?" starts with
the opener "what is" and contains the action exception "what is the time",
yet the detector returns true (the long-question rule fires), contradicting
the claim that such commands must return false. -/
theorem is_conversation_exception_counterexample :
    containsSub (pyStrip (pyLower (("what is the time in new york right now?").data)))
        (("what is the time").data) = true ∧
    (("what is").data).isPrefixOf
        (pyStrip (pyLower (("what is the time in new york right now?").data))) = true ∧
    IntentRouter.is_conversation (("what is the time in new york right now?").data) = true := by
  decide

namespace AuraV2Bridge

/-- `self.pending_confirmation`: a type tag (currently "email") plus the
prepared action payload (drafted email fields). -/
structure PendingConfirmation where
  ctype : Str
  data : List (Str × Str) := []
deriving DecidableEq

/-- Outcome of `AuraV2Bridge._handle_confirmation`: whether
`execute_email_action` was invoked, the new pending slot, and the returned
response (`none` models the implicit Python `None` fall-through). -/
structure ConfirmOutcome where
  executed : Bool
  pending : Option PendingConfirmation
  response : Option Str
  success : Bool
deriving DecidableEq

/-- `affirmative` word list in `_handle_confirmation`. -/
def affirmative : List Str :=
  [("yes").data, ("send").data, ("confirm").data, ("send it").data,
   ("okay").data, ("ok").data, ("go ahead").data]

/-- `negative` word list in `_handle_confirmation`. -/
def negative : List Str :=
  [("no").data, ("cancel").data, aposJoin ("don") ("t"), ("discard").data, ("stop").data]

/-- Re-prompt text returned for an unclear reply. -/
def reprompt : Str :=
  ("Please say ").data ++ aposC ++ ("Send").data ++ aposC ++
    (" to confirm or ").data ++ aposC ++ ("Cancel").data ++ aposC ++ (" to discard.").data

/-- `AuraV2Bridge._handle_confirmation`. `smtpEnv` models the presence of the
SMTP_EMAIL/SMTP_PASSWORD environment variables; `execAction` models
`email_assistant.execute_email_action` applied to the pending payload for a
given action string, returning (success, message). -/
def handle_confirmation (pending : PendingConfirmation) (smtpEnv : Bool)
    (execAction : Str → Bool × Str) (command : Str) : ConfirmOutcome :=
  let cmd_lower := pyLower command
  if affirmative.any (fun w => containsSub cmd_lower w) then
    if pending.ctype = ("email").data then
      let action := if smtpEnv then ("smtp").data else ("clipboard").data
      let r1 := execAction action
      let r2 :=
        if !r1.1 && action = ("smtp").data then
          let rc := execAction (("clipboard").data)
          (rc.1, ("SMTP sending failed. Copied to clipboard instead. ").data ++ rc.2)
        else r1
      { executed := true, pending := none, response := some r2.2, success := true }
    else
      { executed := false, pending := some pending, response := none, success := false }
  else if negative.any (fun w => containsSub cmd_lower w) then
    { executed := false, pending := none,
      response := some (("Cancelled. Draft discarded.").data), success := true }
  else
    { executed := false, pending := some pending, response := some reprompt, success := false }

end AuraV2Bridge

/-- C2 (amended): while an email confirmation is pending, an affirmative-list
match executes the prepared email action and clears the slot; a negative-list
match that is not also an affirmative-list match clears the slot without
executing the draft and acknowledges cancellation; a command matching neither
list leaves the slot unchanged, executes nothing, and returns the re-prompt. -/
theorem confirmation_lifecycle (pending : AuraV2Bridge.PendingConfirmation)
    (smtpEnv : Bool) (execAction : Str → Bool × Str) (command : Str)
    (hty : pending.ctype = ("email").data) :
    (AuraV2Bridge.affirmative.any (fun w => containsSub (pyLower command) w) = true →
      (AuraV2Bridge.handle_confirmation pending smtpEnv execAction command).executed = true ∧
      (AuraV2Bridge.handle_confirmation pending smtpEnv execAction command).pending = none) ∧
    (AuraV2Bridge.affirmative.any (fun w => containsSub (pyLower command) w) = false →
      AuraV2Bridge.negative.any (fun w => containsSub (pyLower command) w) = true →
      (AuraV2Bridge.handle_confirmation pending smtpEnv execAction command).executed = false ∧
      (AuraV2Bridge.handle_confirmation pending smtpEnv execAction command).pending = none ∧
      (AuraV2Bridge.handle_confirmation pending smtpEnv execAction command).response =
        some (("Cancelled. Draft discarded.").data)) ∧
    (AuraV2Bridge.affirmative.any (fun w => containsSub (pyLower command) w) = false →
      AuraV2Bridge.negative.any (fun w => containsSub (pyLower command) w) = false →
      (AuraV2Bridge.handle_confirmation pending smtpEnv execAction command).executed = false ∧
      (AuraV2Bridge.handle_confirmation pending smtpEnv execAction command).pending = some pending ∧
      (AuraV2Bridge.handle_confirmation pending smtpEnv execAction command).response =
        some AuraV2Bridge.reprompt) := by
  refine ⟨fun hA => ?_, fun hA hN => ?_, fun hA hN => ?_⟩
  · simp [AuraV2Bridge.handle_confirmation, hA, hty]
  · simp [AuraV2Bridge.handle_confirmation, hA, hN, hty]
  · simp [AuraV2Bridge.handle_confirmation, hA, hN, hty]

/-- Witness for `confirmation_lifecycle` at concrete inputs: "send it"
executes and clears, "cancel" clears without executing, "maybe" re-prompts and
keeps the slot. -/
theorem confirmation_lifecycle_witness :
    ((AuraV2Bridge.handle_confirmation ⟨("email").data, []⟩ false
        (fun _ => (true, ("done").data)) (("send it").data)).executed = true ∧
      (AuraV2Bridge.handle_confirmation ⟨("email").data, []⟩ false
        (fun _ => (true, ("done").data)) (("send it").data)).pending = none) ∧
    (AuraV2Bridge.handle_confirmation ⟨("email").data, []⟩ false
        (fun _ => (true, ("done").data)) (("cancel").data)).executed = false ∧
    (AuraV2Bridge.handle_confirmation ⟨("email").data, []⟩ false
        (fun _ => (true, ("done").data)) (("maybe").data)).pending =
      some ⟨("email").data, []⟩ :=
  ⟨(confirmation_lifecycle ⟨("email").data, []⟩ false
      (fun _ => (true, ("done").data)) (("send it").data) rfl).1 (by decide),
   ((confirmation_lifecycle ⟨("email").data, []⟩ false
      (fun _ => (true, ("done").data)) (("cancel").data) rfl).2.1 (by decide) (by decide)).1,
   ((confirmation_lifecycle ⟨("email").data, []⟩ false
      (fun _ => (true, ("done").data)) (("maybe").data) rfl).2.2 (by decide) (by decide)).2.1⟩

/-- C2 counterexample: with an email draft pending, the reply "don't send it"
matches the negative list (it contains "don't"), yet the prepared email action
is executed — refuting the claim that a negative-list match never executes the
draft. -/
theorem negative_reply_executes_draft :
    AuraV2Bridge.negative.any
        (fun w => containsSub (pyLower (aposJoin ("don") ("t send it"))) w) = true ∧
    (AuraV2Bridge.handle_confirmation ⟨("email").data, []⟩ false
        (fun _ => (true, ("done").data)) (aposJoin ("don") ("t send it"))).executed = true := by
  constructor
  · decide
  · rfl

/-- C10: while an email confirmation is pending, any reply whose lower-cased
text contains an affirmative word as a substring executes the drafted email
and clears the slot, regardless of whether it also contains a negative word. -/
theorem affirmative_substring_precedence (pending : AuraV2Bridge.PendingConfirmation)
    (smtpEnv : Bool) (execAction : Str → Bool × Str) (command : Str)
    (hty : pending.ctype = ("email").data)
    (hA : AuraV2Bridge.affirmative.any (fun w => containsSub (pyLower command) w) = true) :
    (AuraV2Bridge.handle_confirmation pending smtpEnv execAction command).executed = true ∧
    (AuraV2Bridge.handle_confirmation pending smtpEnv execAction command).pending = none := by
  simp [AuraV2Bridge.handle_confirmation, hA, hty]

/-- Witness for `affirmative_substring_precedence`: "don't send it" contains
both the affirmative word "send" and the negative word "don't", and the draft
is sent. -/
theorem affirmative_substring_precedence_witness :
    AuraV2Bridge.affirmative.any
        (fun w => containsSub (pyLower (aposJoin ("don") ("t send it"))) w) = true ∧
    (AuraV2Bridge.handle_confirmation ⟨("email").data, [] ⟩ true
        (fun _ => (false, ("fail").data)) (aposJoin ("don") ("t send it"))).executed = true :=
  ⟨by decide,
   (affirmative_substring_precedence ⟨("email").data, []⟩ true
      (fun _ => (false, ("fail").data)) (aposJoin ("don") ("t send it")) rfl (by decide)).1⟩

namespace AuraV2Bridge

/-- Which handler `AuraV2Bridge.process` ultimately delegates to; each
constructor corresponds to one return site of `process`. -/
inductive ProcessPath
  | emptyReturn | confirmation | multiTask | conversation | emailIntercept
  | localHigh | goalDone | geminiAfterGoal | localLow | geminiFallback
deriving DecidableEq

/-- Tail of `process`: the lower-confidence classifier retry (threshold 0.50,
return only on success) followed by the unconditional code-generation
fallback. `localLowOk` models `_execute_local` succeeding. -/
def processLowStage (route : IntentRouter.RouteResult) (localLowOk : Bool) : ProcessPath :=
  if route.function.isSome && decide ((1/2 : ℚ) ≤ route.confidence) then
    if localLowOk then .localLow else .geminiFallback
  else .geminiFallback

/-- Goal-driven stage of `process`: on success return; on failure branch on
the sentinel responses NEEDS_CODE_GENERATION (code generation) and anything
else (fall through to the low-confidence stage). `goalOutcome = none` models
the goal router being unavailable or raising. -/
def processGoalStage (goalEnabled : Bool) (goalOutcome : Option (Str × Bool))
    (route : IntentRouter.RouteResult) (localLowOk : Bool) : ProcessPath :=
  match (if goalEnabled then goalOutcome else none) with
  | some (_, true) => .goalDone
  | some (resp, false) =>
      if resp = ("NEEDS_CODE_GENERATION").data then .geminiAfterGoal
      else processLowStage route localLowOk
  | none => processLowStage route localLowOk

/-- `AuraV2Bridge.process` decision order: empty command, pending
confirmation, multi-task, conversation, high-confidence classifier match
(with the draft_email interception), goal-driven stage, low-confidence
retry, code-generation fallback. `multiOutcome = none` models the handler
returning None or raising; `localHighOk` models `_execute_local` succeeding
at the ≥ 0.70 stage. -/
def process (command : Str) (pending : Option PendingConfirmation)
    (multiEnabled multiIsMulti : Bool) (multiOutcome : Option (Str × Bool × Bool))
    (route : IntentRouter.RouteResult) (localHighOk : Bool)
    (goalEnabled : Bool) (goalOutcome : Option (Str × Bool)) (localLowOk : Bool) :
    ProcessPath :=
  let command := pyStrip command
  if command = [] then .emptyReturn
  else if pending.isSome then .confirmation
  else if multiEnabled && multiIsMulti && multiOutcome.isSome then .multiTask
  else if route.is_conversation then .conversation
  else if route.function.isSome && decide ((7/10 : ℚ) ≤ route.confidence) then
    if route.function = some (("draft_email").data) then .emailIntercept
    else if localHighOk then .localHigh
    else processGoalStage goalEnabled goalOutcome route localLowOk
  else processGoalStage goalEnabled goalOutcome route localLowOk

end AuraV2Bridge

/-- C5: for every non-empty, non-multi-task command with no pending
confirmation whose RouteResult has is_conversation=true, `process` delegates
to the conversation path — even when the same RouteResult carries a function
name and needs_code_generation=true, and whatever the downstream stages
would do. -/
theorem conversation_priority (command : Str)
    (pending : Option AuraV2Bridge.PendingConfirmation)
    (multiEnabled : Bool) (multiOutcome : Option (Str × Bool × Bool))
    (route : IntentRouter.RouteResult) (localHighOk goalEnabled : Bool)
    (goalOutcome : Option (Str × Bool)) (localLowOk : Bool)
    (hcmd : pyStrip command ≠ [])
    (hpend : pending = none)
    (hconv : route.is_conversation = true) :
    AuraV2Bridge.process command pending multiEnabled false multiOutcome route
      localHighOk goalEnabled goalOutcome localLowOk =
      AuraV2Bridge.ProcessPath.conversation := by
  simp [AuraV2Bridge.process, hcmd, hpend, hconv]

/-- Witness for `conversation_priority`: a malformed RouteResult with
is_conversation, a function name and needs_code_generation all set is still
routed to conversation. -/
theorem conversation_priority_witness :
    AuraV2Bridge.process (("hello there").data) none true false
      (some ((("x").data, true, false)))
      { confidence := 19/20, function := some (("play_spotify").data),
        is_conversation := true, needs_code_generation := true }
      true true (some ((("y").data, true))) true =
      AuraV2Bridge.ProcessPath.conversation :=
  conversation_priority (("hello there").data) none true
    (some ((("x").data, true, false)))
    { confidence := 19/20, function := some (("play_spotify").data),
      is_conversation := true, needs_code_generation := true }
    true true (some ((("y").data, true))) true (by decide) rfl rfl

/-- `GoalType(str, Enum)` from `goal.py`. -/
inductive GoalType
  | PLAY_MEDIA | CONTROL_MEDIA
  | CHECK_EMAIL | SEND_EMAIL | SEND_MESSAGE
  | OPEN_APP | CLOSE_APP
  | SYSTEM_CONTROL | FILE_OPERATION
  | WEB_SEARCH | OPEN_WEBSITE
  | CREATE_CONTENT
  | CONVERSATION
  | UNKNOWN
deriving DecidableEq

/-- The `modifiers` dict of a Goal. The strategies read the keys "action",
"control", "type" and "level" via `dict.get`; `none` models an absent key. -/
structure Modifiers where
  action : Option Str := none
  control : Option Str := none
  mtype : Option Str := none
  level : Option Int := none
deriving DecidableEq

/-- `Goal` dataclass from `goal.py`. -/
structure Goal where
  type : GoalType
  content : Str := []
  preference : Str := []
  modifiers : Modifiers := {}
  raw_command : Str := []
  confidence : ℚ := 9/10
deriving DecidableEq

/-- `ActionStep` dataclass from `goal.py`. -/
structure ActionStep where
  type : Str
  keys : List Str := []
  text : Str := []
  ms : Nat := 500
  x : Option Int := none
  y : Option Int := none
  button : Str := ("left").data
  clicks : Int := 3
deriving DecidableEq

/-- `HumanActionPlan` dataclass from `goal.py` (the fallback plan field is
never set by the strategies and is omitted). -/
structure HumanActionPlan where
  steps : List ActionStep := []
  description : Str := []
  goal : Option Goal := none
deriving DecidableEq

/-- `HumanActionPlan.add_step`: append-only fluent builder. -/
def HumanActionPlan.add_step (p : HumanActionPlan) (s : ActionStep) : HumanActionPlan :=
  { p with steps := p.steps ++ [s] }

/-- `HumanActionPlan.key`. -/
def HumanActionPlan.key (p : HumanActionPlan) (ks : List Str) : HumanActionPlan :=
  p.add_step { type := ("KEY").data, keys := ks }

/-- `HumanActionPlan.hotkey`. -/
def HumanActionPlan.hotkey (p : HumanActionPlan) (ks : List Str) : HumanActionPlan :=
  p.add_step { type := ("HOTKEY").data, keys := ks }

/-- `HumanActionPlan.type_text`. -/
def HumanActionPlan.type_text (p : HumanActionPlan) (t : Str) : HumanActionPlan :=
  p.add_step { type := ("TYPE").data, text := t }

/-- `HumanActionPlan.wait`. -/
def HumanActionPlan.wait (p : HumanActionPlan) (ms : Nat) : HumanActionPlan :=
  p.add_step { type := ("WAIT").data, ms := ms }

namespace PlanExecutor

/-- The `for i, step in enumerate(plan.steps)` loop of `PlanExecutor.execute`.
`interruptAt i` is the value of `self.interrupt_flag` read just before step
`i`; `stepOk i` is what `_execute_step` returns for step `i` (a failure is
logged and the loop continues). Returns the overall result and the trace of
(index, step result) pairs for the steps that actually ran. -/
def execLoop (interruptAt stepOk : Nat → Bool) :
    (steps : List ActionStep) → (i : Nat) → Bool × List (Nat × Bool)
  | [], _ => (true, [])
  | _ :: rest, i =>
    if interruptAt i then (false, [])
    else
      let t := execLoop interruptAt stepOk rest (i + 1)
      (t.1, (i, stepOk i) :: t.2)

/-- `PlanExecutor.execute`: returns false when `advanced_control` failed to
load, otherwise replays the plan's steps from index 0. -/
def execute (hasControl : Bool) (interruptAt stepOk : Nat → Bool)
    (plan : HumanActionPlan) : Bool × List (Nat × Bool) :=
  if !hasControl then (false, [])
  else execLoop interruptAt stepOk plan.steps 0

theorem execLoop_cons_pos (interruptAt stepOk : Nat → Bool) (s : ActionStep)
    (rest : List ActionStep) (i : Nat) (h : interruptAt i = true) :
    execLoop interruptAt stepOk (s :: rest) i = (false, []) := by
  simp [execLoop, h]

theorem execLoop_cons_neg (interruptAt stepOk : Nat → Bool) (s : ActionStep)
    (rest : List ActionStep) (i : Nat) (h : interruptAt i = false) :
    execLoop interruptAt stepOk (s :: rest) i =
      ((execLoop interruptAt stepOk rest (i + 1)).1,
        (i, stepOk i) :: (execLoop interruptAt stepOk rest (i + 1)).2) := by
  simp [execLoop, h]

theorem execLoop_fst_true_iff (interruptAt stepOk : Nat → Bool) (steps : List ActionStep)
    (i : Nat) :
    (execLoop interruptAt stepOk steps i).1 = true ↔
      ∀ j, j < steps.length → interruptAt (i + j) = false := by
  induction steps generalizing i with
  | nil => simp [execLoop]
  | cons s rest ih =>
    by_cases h : interruptAt i = true
    · rw [execLoop_cons_pos interruptAt stepOk s rest i h]
      refine iff_of_false (by simp) (fun hall => ?_)
      have h0 := hall 0 (by simp)
      rw [Nat.add_zero, h] at h0
      cases h0
    · have h' : interruptAt i = false := by simpa using h
      rw [execLoop_cons_neg interruptAt stepOk s rest i h']
      dsimp only
      rw [ih (i + 1)]
      constructor
      · intro hall j hj
        cases j with
        | zero => simpa using h'
        | succ j' =>
          have hstep := hall j' (by simp at hj; omega)
          rw [show i + 1 + j' = i + (j' + 1) by omega] at hstep
          exact hstep
      · intro hall j hj
        have hstep := hall (j + 1) (by simp; omega)
        rw [show i + (j + 1) = i + 1 + j by omega] at hstep
        exact hstep

theorem execLoop_interrupted (interruptAt stepOk : Nat → Bool) (steps : List ActionStep)
    (i k : Nat) (hk : k < steps.length) (hint : interruptAt (i + k) = true)
    (hbefore : ∀ j, j < k → interruptAt (i + j) = false) :
    (execLoop interruptAt stepOk steps i).1 = false ∧
      (execLoop interruptAt stepOk steps i).2.map Prod.fst = List.range' i k := by
  induction steps generalizing i k with
  | nil => simp at hk
  | cons s rest ih =>
    cases k with
    | zero =>
      rw [Nat.add_zero] at hint
      rw [execLoop_cons_pos interruptAt stepOk s rest i hint]
      simp
    | succ k' =>
      have h0 : interruptAt i = false := by
        have := hbefore 0 (by omega)
        rwa [Nat.add_zero] at this
      rw [execLoop_cons_neg interruptAt stepOk s rest i h0]
      have ihres := ih (i + 1) k' (by simp at hk; omega)
        (by rw [show i + 1 + k' = i + (k' + 1) by omega]; exact hint)
        (fun j hj => by
          have := hbefore (j + 1) (by omega)
          rwa [show i + (j + 1) = i + 1 + j by omega] at this)
      refine ⟨ihres.1, ?_⟩
      dsimp only [List.map_cons]
      rw [ihres.2, List.range'_succ]

theorem execLoop_trace_indep (interruptAt stepOk stepOk' : Nat → Bool)
    (steps : List ActionStep) (i : Nat) :
    (execLoop interruptAt stepOk steps i).1 = (execLoop interruptAt stepOk' steps i).1 ∧
      (execLoop interruptAt stepOk steps i).2.map Prod.fst =
        (execLoop interruptAt stepOk' steps i).2.map Prod.fst := by
  induction steps generalizing i with
  | nil => simp [execLoop]
  | cons s rest ih =>
    by_cases h : interruptAt i = true
    · rw [execLoop_cons_pos interruptAt stepOk s rest i h,
        execLoop_cons_pos interruptAt stepOk' s rest i h]
      exact ⟨rfl, rfl⟩
    · have h' : interruptAt i = false := by simpa using h
      rw [execLoop_cons_neg interruptAt stepOk s rest i h',
        execLoop_cons_neg interruptAt stepOk' s rest i h']
      have := ih (i + 1)
      exact ⟨this.1, by dsimp only [List.map_cons]; rw [this.2]⟩

end PlanExecutor

/-- C7: Plan Executor contract — steps are replayed in order; when the
interrupt flag is set as step k is about to run (and not earlier), execution
stops and returns false with exactly the steps before k executed; a single
step's failure never affects which steps run or the overall result; and
execution returns true exactly when no interrupt is seen before any of the
steps, i.e. the loop runs to completion. -/
theorem plan_executor_contract (interruptAt stepOk : Nat → Bool) (plan : HumanActionPlan) :
    ((PlanExecutor.execute true interruptAt stepOk plan).1 = true ↔
      ∀ j, j < plan.steps.length → interruptAt j = false) ∧
    (∀ k, k < plan.steps.length → interruptAt k = true →
      (∀ j, j < k → interruptAt j = false) →
      (PlanExecutor.execute true interruptAt stepOk plan).1 = false ∧
        (PlanExecutor.execute true interruptAt stepOk plan).2.map Prod.fst =
          List.range k) ∧
    (∀ stepOk',
      (PlanExecutor.execute true interruptAt stepOk plan).1 =
        (PlanExecutor.execute true interruptAt stepOk' plan).1 ∧
      (PlanExecutor.execute true interruptAt stepOk plan).2.map Prod.fst =
        (PlanExecutor.execute true interruptAt stepOk' plan).2.map Prod.fst) := by
  refine ⟨?_, fun k hk hint hbefore => ?_, fun stepOk' => ?_⟩
  · simpa [PlanExecutor.execute] using
      PlanExecutor.execLoop_fst_true_iff interruptAt stepOk plan.steps 0
  · have := PlanExecutor.execLoop_interrupted interruptAt stepOk plan.steps 0 k hk
      (by simpa using hint) (fun j hj => by simpa using hbefore j hj)
    simpa [PlanExecutor.execute, List.range_eq_range'] using this
  · simpa [PlanExecutor.execute] using
      PlanExecutor.execLoop_trace_indep interruptAt stepOk stepOk' plan.steps 0

/-- Witness for `plan_executor_contract`: on a three-step plan with the
interrupt flag raised before step 1, only step 0 runs and the result is
false; with one failing step and no interrupt, all steps run and the result
is true. -/
theorem plan_executor_contract_witness :
    (PlanExecutor.execute true (fun i => decide (i = 1)) (fun _ => true)
        (((HumanActionPlan.mk [] (("demo").data) none).hotkey
          [("win").data]).wait 300 |>.type_text (("spotify").data))).1 = false ∧
    (PlanExecutor.execute true (fun i => decide (i = 1)) (fun _ => true)
        (((HumanActionPlan.mk [] (("demo").data) none).hotkey
          [("win").data]).wait 300 |>.type_text (("spotify").data))).2.map Prod.fst =
      List.range 1 ∧
    (PlanExecutor.execute true (fun _ => false) (fun i => decide (i ≠ 2))
        (((HumanActionPlan.mk [] (("demo").data) none).hotkey
          [("win").data]).wait 300 |>.type_text (("spotify").data))).1 = true := by
  refine ⟨?_, ?_, ?_⟩
  · exact ((plan_executor_contract (fun i => decide (i = 1)) (fun _ => true) _).2.1 1
      (by decide) (by decide) (by decide)).1
  · exact ((plan_executor_contract (fun i => decide (i = 1)) (fun _ => true) _).2.1 1
      (by decide) (by decide) (by decide)).2
  · exact (plan_executor_contract (fun _ => false) (fun i => decide (i ≠ 2)) _).1.mpr
      (by decide)

/-- Rate-limit signature test shared by `IntentRouter._classify_with_llm` and
`GoalRouter.extract_goal`: "429" or "RESOURCE_EXHAUSTED" in the error string,
or "quota" in its lower-casing. -/
def isRateLimit (e : Str) : Bool :=
  containsSub e (("429").data) || containsSub e (("RESOURCE_EXHAUSTED").data) ||
    containsSub (pyLower e) (("quota").data)

/-- Trace of one retried completion-service call: the final disposition
(`Except.error` models the exception propagating out of the loop), the number
of attempts made, and the backoff sleeps performed as (attempt index,
seconds) pairs. -/
structure RetryTrace (α : Type) where
  result : Except Str α
  attempts : Nat
  waits : List (Nat × Nat)

/-- The `for attempt in range(max_retries)` loop shared by
`IntentRouter._classify_with_llm` and `GoalRouter.extract_goal`:
`outcome a` is what the service call raises or returns on attempt `a`;
`left` counts the remaining loop iterations after the current one
(`max_retries - 1 - attempt`). On an exception, a rate-limit signature with
iterations left sleeps `2 ** (attempt + 1)` seconds and retries; any other
exception with iterations left retries without sleeping (only the last
attempt's exception leaves the loop). -/
def retryGo (outcome : Nat → Except Str α) : Nat → Nat → RetryTrace α
  | a, 0 =>
    match outcome a with
    | .ok v => ⟨.ok v, 1, []⟩
    | .error e => ⟨.error e, 1, []⟩
  | a, left + 1 =>
    match outcome a with
    | .ok v => ⟨.ok v, 1, []⟩
    | .error e =>
      let rest := retryGo outcome (a + 1) left
      ⟨rest.result, rest.attempts + 1,
        (if isRateLimit e then [(a, 2 ^ (a + 1))] else []) ++ rest.waits⟩

/-- The retry loop of `IntentRouter._classify_with_llm` (`max_retries = 3`);
an error result models the final `raise`. -/
def classify_with_llm_retry (outcome : Nat → Except Str α) : RetryTrace α :=
  retryGo outcome 0 2

/-- `GoalRouter.extract_goal`: same loop, but after the loop exhausts, the
exception is swallowed and a Goal of type UNKNOWN carrying the raw command is
returned. -/
def extract_goal_retry (outcome : Nat → Except Str Goal) (raw_command : Str) :
    Goal × Nat × List (Nat × Nat) :=
  let t := retryGo outcome 0 2
  (match t.result with
   | .ok g => g
   | .error _ => { type := GoalType.UNKNOWN, raw_command := raw_command },
   t.attempts, t.waits)

/-- C4 counterexample: on attempt 0 the service raises "boom", which does not
match the rate-limit signature, yet the call is attempted again (attempt 1
succeeds and its value is returned after 2 attempts, with no backoff sleep) —
refuting the claim that any non-rate-limit exception terminates the call
immediately without retry. -/
theorem nonratelimit_error_is_retried :
    isRateLimit (("boom").data) = false ∧
    classify_with_llm_retry
        (fun a => if a = 0 then Except.error (("boom").data) else Except.ok 7) =
      ⟨Except.ok 7, 2, []⟩ := by
  constructor
  · decide
  · rfl

theorem retryGo_attempts_bounds (outcome : Nat → Except Str α) (a l : Nat) :
    1 ≤ (retryGo outcome a l).attempts ∧ (retryGo outcome a l).attempts ≤ l + 1 := by
  induction l generalizing a with
  | zero =>
    cases h : outcome a <;> simp [retryGo, h]
  | succ l ih =>
    cases h : outcome a with
    | ok v => simp [retryGo, h]
    | error e =>
      have := ih (a + 1)
      simp only [retryGo, h]
      omega

theorem retryGo_waits_spec (outcome : Nat → Except Str α) (a l : Nat) :
    ∀ p ∈ (retryGo outcome a l).waits,
      p.2 = 2 ^ (p.1 + 1) ∧ a ≤ p.1 ∧ p.1 < a + l ∧
        ∃ e, outcome p.1 = Except.error e ∧ isRateLimit e = true := by
  induction l generalizing a with
  | zero =>
    cases h : outcome a <;> simp [retryGo, h]
  | succ l ih =>
    cases h : outcome a with
    | ok v => simp [retryGo, h]
    | error e =>
      intro p hp
      simp only [retryGo, h, List.mem_append] at hp
      rcases hp with hp | hp
      · by_cases hr : isRateLimit e = true
        · simp only [hr, if_true, List.mem_singleton] at hp
          subst hp
          exact ⟨rfl, le_refl a, by omega, e, h, hr⟩
        · simp [hr] at hp
      · have := ih (a + 1) p hp
        exact ⟨this.1, by omega, by omega, this.2.2.2⟩

theorem retryGo_nonfinal_errored (outcome : Nat → Except Str α) (a l : Nat) :
    ∀ k, k + 1 < (retryGo outcome a l).attempts → ∃ e, outcome (a + k) = Except.error e := by
  induction l generalizing a with
  | zero =>
    cases h : outcome a <;> simp [retryGo, h]
  | succ l ih =>
    cases h : outcome a with
    | ok v => simp [retryGo, h]
    | error e =>
      intro k hk
      simp only [retryGo, h] at hk
      cases k with
      | zero => exact ⟨e, by rwa [Nat.add_zero]⟩
      | succ k' =>
        have := ih (a + 1) k' (by omega)
        rwa [show a + 1 + k' = a + (k' + 1) by omega] at this

theorem retryGo_result_ok (outcome : Nat → Except Str α) (a l : Nat) (v : α) :
    (retryGo outcome a l).result = Except.ok v →
      outcome (a + (retryGo outcome a l).attempts - 1) = Except.ok v := by
  induction l generalizing a with
  | zero =>
    cases h : outcome a with
    | ok w =>
      intro hv
      have hw : w = v := by simpa [retryGo, h] using hv
      subst hw
      simp [retryGo, h]
    | error e => simp [retryGo, h]
  | succ l ih =>
    cases h : outcome a with
    | ok w =>
      intro hv
      have hw : w = v := by simpa [retryGo, h] using hv
      subst hw
      simp [retryGo, h]
    | error e =>
      intro hv
      have hv' : (retryGo outcome (a + 1) l).result = Except.ok v := by
        simpa [retryGo, h] using hv
      have hres := ih (a + 1) hv'
      have harith : a + (retryGo outcome a (l + 1)).attempts - 1 =
          a + 1 + (retryGo outcome (a + 1) l).attempts - 1 := by
        simp only [retryGo, h]
        omega
      rw [harith]
      exact hres

theorem retryGo_result_error (outcome : Nat → Except Str α) (a l : Nat) (e : Str) :
    (retryGo outcome a l).result = Except.error e →
      (retryGo outcome a l).attempts = l + 1 ∧ outcome (a + l) = Except.error e := by
  induction l generalizing a with
  | zero =>
    cases h : outcome a with
    | ok w => simp [retryGo, h]
    | error e0 =>
      intro hv
      have he : e0 = e := by simpa [retryGo, h] using hv
      subst he
      exact ⟨by simp [retryGo, h], by simpa using h⟩
  | succ l ih =>
    cases h : outcome a with
    | ok w => simp [retryGo, h]
    | error e0 =>
      intro hv
      have hv' : (retryGo outcome (a + 1) l).result = Except.error e := by
        simpa [retryGo, h] using hv
      obtain ⟨h1, h2⟩ := ih (a + 1) hv'
      constructor
      · simp only [retryGo, h]
        omega
      · rwa [show a + (l + 1) = a + 1 + l by omega]

/-- C4 (amended): every completion-service call made by the Intent Classifier
and Goal Extractor is attempted at most 3 times; a backoff sleep of
`2^(attempt+1)` seconds (2s after attempt 0, 4s after attempt 1) is performed
exactly for attempts that raised a rate-limit/quota-signature error and were
followed by a retry; every attempt that is followed by another attempt raised
some exception — of any kind, i.e. non-rate-limit exceptions are also retried
(without a sleep) rather than terminating the call — and only the third
attempt's exception terminates the call (propagated by the classifier,
swallowed into an UNKNOWN goal by the extractor). -/
theorem retry_policy (outcome : Nat → Except Str α)
    (goalOutcome : Nat → Except Str Goal) (raw_command : Str) :
    (1 ≤ (classify_with_llm_retry outcome).attempts ∧
      (classify_with_llm_retry outcome).attempts ≤ 3) ∧
    (∀ p ∈ (classify_with_llm_retry outcome).waits,
      p.2 = 2 ^ (p.1 + 1) ∧ p.1 < 2 ∧
        ∃ e, outcome p.1 = Except.error e ∧ isRateLimit e = true) ∧
    (∀ k, k + 1 < (classify_with_llm_retry outcome).attempts →
      ∃ e, outcome k = Except.error e) ∧
    (∀ v, (classify_with_llm_retry outcome).result = Except.ok v →
      outcome ((classify_with_llm_retry outcome).attempts - 1) = Except.ok v) ∧
    (∀ e, (classify_with_llm_retry outcome).result = Except.error e →
      (classify_with_llm_retry outcome).attempts = 3 ∧ outcome 2 = Except.error e) ∧
    ((extract_goal_retry goalOutcome raw_command).2 =
      ((classify_with_llm_retry goalOutcome).attempts,
        (classify_with_llm_retry goalOutcome).waits) ∧
      ∀ e, (classify_with_llm_retry goalOutcome).result = Except.error e →
        (extract_goal_retry goalOutcome raw_command).1 =
          { type := GoalType.UNKNOWN, raw_command := raw_command }) := by
  refine ⟨?_, ?_, ?_, ?_, ?_, ?_, ?_⟩
  · exact ⟨(retryGo_attempts_bounds outcome 0 2).1,
      (retryGo_attempts_bounds outcome 0 2).2⟩
  · intro p hp
    have := retryGo_waits_spec outcome 0 2 p hp
    exact ⟨this.1, by omega, this.2.2.2⟩
  · intro k hk
    simpa using retryGo_nonfinal_errored outcome 0 2 k hk
  · intro v hv
    simpa using retryGo_result_ok outcome 0 2 v hv
  · intro e he
    have := retryGo_result_error outcome 0 2 e he
    exact ⟨this.1, by simpa using this.2⟩
  · rfl
  · intro e he
    simp only [extract_goal_retry]
    rw [show (retryGo goalOutcome 0 2).result = Except.error e from he]

/-- Witness for `retry_policy`: two rate-limited attempts then a success
yields 3 attempts with sleeps of 2s and 4s; the extractor falls back to an
UNKNOWN goal when every attempt raises. -/
theorem retry_policy_witness :
    (classify_with_llm_retry
        (fun a => if a < 2 then Except.error (("429 quota").data) else Except.ok 5)).attempts =
      3 ∧
    (classify_with_llm_retry
        (fun a => if a < 2 then Except.error (("429 quota").data) else Except.ok 5)).waits =
      [(0, 2), (1, 4)] ∧
    (extract_goal_retry (fun _ => Except.error (("down").data)) (("play jazz").data)).1 =
      { type := GoalType.UNKNOWN, raw_command := ("play jazz").data } :=
  ⟨by rfl, by rfl,
   (retry_policy (fun _ => (Except.error (("down").data) : Except Str Goal))
      (fun _ => (Except.error (("down").data) : Except Str Goal))
      (("play jazz").data)).2.2.2.2.2.2
    (("down").data) (by rfl)⟩

namespace ContextEngine

/-- A JSON value as stored in the context file. The ContextState fields hold
strings, string lists (running_apps, recent_commands) or a string-to-string
map (installed_apps). -/
inductive JVal
  | s (v : Str)
  | l (v : List Str)
  | d (v : List (Str × Str))
deriving DecidableEq

/-- `ContextState` dataclass (`context_engine.py`) with its field defaults.
Fields hold whatever value the constructor received — the Python dataclass
does not type-check them — hence the uniform `JVal` type. -/
structure ContextState where
  active_app : JVal := .s []
  running_apps : JVal := .l []
  last_media_app : JVal := .s (("spotify").data)
  last_video_app : JVal := .s (("youtube").data)
  last_email_source : JVal := .s (("gmail").data)
  last_browser : JVal := .s (("chrome").data)
  preferred_music_app : JVal := .s (("spotify").data)
  preferred_video_app : JVal := .s (("youtube").data)
  preferred_streaming_app : JVal := .s (("netflix").data)
  preferred_email_app : JVal := .s (("gmail").data)
  installed_apps : JVal := .d []
  recent_commands : JVal := .l []
  last_updated : JVal := .s []
deriving DecidableEq

/-- The all-defaults `ContextState()`. -/
def defaultState : ContextState := {}

/-- `dataclasses.asdict`: field-name/value pairs in declaration order; this
is the dict `ContextEngine.save` writes to disk. -/
def asdict (st : ContextState) : List (String × JVal) :=
  [("active_app", st.active_app), ("running_apps", st.running_apps),
   ("last_media_app", st.last_media_app), ("last_video_app", st.last_video_app),
   ("last_email_source", st.last_email_source), ("last_browser", st.last_browser),
   ("preferred_music_app", st.preferred_music_app),
   ("preferred_video_app", st.preferred_video_app),
   ("preferred_streaming_app", st.preferred_streaming_app),
   ("preferred_email_app", st.preferred_email_app),
   ("installed_apps", st.installed_apps),
   ("recent_commands", st.recent_commands),
   ("last_updated", st.last_updated)]

/-- The dataclass's known field names. -/
def field_names : List String := (asdict defaultState).map Prod.fst

/-- `ContextState(**data)`: raises TypeError on an unexpected keyword (an
unknown key); otherwise each present key initializes its field and each
missing key takes the dataclass default. -/
def construct (data : List (String × JVal)) : Except String ContextState :=
  if data.all (fun kv => field_names.contains kv.1) then
    .ok {
      active_app := ((data.lookup ("active_app")).getD defaultState.active_app)
      running_apps := ((data.lookup ("running_apps")).getD defaultState.running_apps)
      last_media_app := ((data.lookup ("last_media_app")).getD defaultState.last_media_app)
      last_video_app := ((data.lookup ("last_video_app")).getD defaultState.last_video_app)
      last_email_source :=
        ((data.lookup ("last_email_source")).getD defaultState.last_email_source)
      last_browser := ((data.lookup ("last_browser")).getD defaultState.last_browser)
      preferred_music_app :=
        ((data.lookup ("preferred_music_app")).getD defaultState.preferred_music_app)
      preferred_video_app :=
        ((data.lookup ("preferred_video_app")).getD defaultState.preferred_video_app)
      preferred_streaming_app :=
        ((data.lookup ("preferred_streaming_app")).getD defaultState.preferred_streaming_app)
      preferred_email_app :=
        ((data.lookup ("preferred_email_app")).getD defaultState.preferred_email_app)
      installed_apps := ((data.lookup ("installed_apps")).getD defaultState.installed_apps)
      recent_commands := ((data.lookup ("recent_commands")).getD defaultState.recent_commands)
      last_updated := ((data.lookup ("last_updated")).getD defaultState.last_updated) }
  else
    .error ("unexpected keyword argument")

/-- `ContextEngine._load_context`: any exception while reading or
constructing (including the TypeError an unknown key raises) is caught and a
fresh default ContextState is returned instead. -/
def load_context (data : List (String × JVal)) : ContextState :=
  match construct data with
  | .ok st => st
  | .error _ => defaultState

end ContextEngine

/-- C9 (amended): saving a ContextState and reloading it yields the identical
state (so identical preference fields); loading a file missing a known key
populates that key with its default while keeping the other saved fields; and
loading a file containing an unknown extra key does not raise to the caller —
but instead of ignoring just the unknown key, the constructor's TypeError is
caught and the entire file is discarded, so loading returns the all-defaults
state. -/
theorem context_persistence (st : ContextEngine.ContextState)
    (extraKey : String) (v : ContextEngine.JVal)
    (hextra : ContextEngine.field_names.contains extraKey = false) :
    ContextEngine.load_context (ContextEngine.asdict st) = st ∧
    ContextEngine.load_context
        ((ContextEngine.asdict st).filter (fun kv => kv.1 ≠ ("preferred_music_app"))) =
      { st with preferred_music_app := ContextEngine.defaultState.preferred_music_app } ∧
    ContextEngine.load_context (ContextEngine.asdict st ++ [(extraKey, v)]) =
      ContextEngine.defaultState := by
  refine ⟨?_, ?_, ?_⟩
  · rfl
  · rfl
  · have hall : ¬ (((ContextEngine.asdict st ++ [(extraKey, v)]).all
        (fun kv => ContextEngine.field_names.contains kv.1)) = true) := by
      rw [List.all_append]
      intro hcontra
      have h2 := ((Bool.and_eq_true _ _).mp hcontra).2
      simp only [List.all_cons, List.all_nil, Bool.and_true] at h2
      rw [hextra] at h2
      cases h2
    unfold ContextEngine.load_context ContextEngine.construct
    rw [if_neg hall]

/-- Witness for `context_persistence`: a state whose learned music preference
is "vlc" survives a save/load round trip, but adding an unknown key "theme"
to the saved file silently resets everything to defaults, losing the "vlc"
preference. -/
theorem context_persistence_witness :
    ContextEngine.load_context
        (ContextEngine.asdict
          { ContextEngine.defaultState with
              preferred_music_app := ContextEngine.JVal.s (("vlc").data) }) =
      { ContextEngine.defaultState with
          preferred_music_app := ContextEngine.JVal.s (("vlc").data) } ∧
    ContextEngine.load_context
        (ContextEngine.asdict
          { ContextEngine.defaultState with
              preferred_music_app := ContextEngine.JVal.s (("vlc").data) } ++
          [(("theme"), ContextEngine.JVal.s (("dark").data))]) =
      ContextEngine.defaultState :=
  ⟨(context_persistence
      { ContextEngine.defaultState with
          preferred_music_app := ContextEngine.JVal.s (("vlc").data) }
      ("theme") (ContextEngine.JVal.s (("dark").data)) (by decide)).1,
   (context_persistence
      { ContextEngine.defaultState with
          preferred_music_app := ContextEngine.JVal.s (("vlc").data) }
      ("theme") (ContextEngine.JVal.s (("dark").data)) (by decide)).2.2⟩

/-- C9 counterexample: the saved state has preferred_music_app = "vlc"; after
appending the unknown key "theme" the reload returns the default state, whose
preferred_music_app is "spotify" — the unknown key was not merely ignored,
the known keys were lost too. -/
theorem unknown_key_resets_state :
    (ContextEngine.load_context
        (ContextEngine.asdict
          { ContextEngine.defaultState with
              preferred_music_app := ContextEngine.JVal.s (("vlc").data) } ++
          [(("theme"), ContextEngine.JVal.s (("dark").data))])).preferred_music_app =
      ContextEngine.JVal.s (("spotify").data) := by
  rfl

namespace ContextEngine

/-- `ContextEngine.get_preference`: category-keyed read of the preference
fields, defaulting to the empty string for unknown categories. -/
def get_preference (st : ContextState) (category : Str) : JVal :=
  if category = ("music").data then st.preferred_music_app
  else if category = ("video").data then st.preferred_video_app
  else if category = ("streaming").data then st.preferred_streaming_app
  else if category = ("email").data then st.preferred_email_app
  else if category = ("browser").data then st.last_browser
  else .s []

/-- `ContextEngine.update_preference` followed by `save`. The wall-clock
`last_updated` stamp is modelled as leaving that field unchanged. -/
def update_preference (st : ContextState) (category app_name : Str) : ContextState :=
  if category = ("music").data then
    { st with preferred_music_app := .s app_name, last_media_app := .s app_name }
  else if category = ("video").data then
    { st with preferred_video_app := .s app_name, last_video_app := .s app_name }
  else if category = ("email").data then
    { st with preferred_email_app := .s app_name, last_email_source := .s app_name }
  else st

end ContextEngine

/-- Python `str.replace(c, r)` for a single-character pattern, used by the
strategies to URL-encode spaces. -/
def pyReplace (s : Str) (c : Char) (r : Str) : Str :=
  s.flatMap (fun x => if x = c then r else [x])

namespace StrategyPlanner

open ContextEngine

/-- `MediaKeyStrategy.MEDIA_ACTIONS`. -/
def MEDIA_ACTIONS : List (Str × Str) :=
  [(("play").data, ("playpause").data), (("pause").data, ("playpause").data),
   (("play_pause").data, ("playpause").data), (("next").data, ("nexttrack").data),
   (("previous").data, ("prevtrack").data), (("prev").data, ("prevtrack").data),
   (("stop").data, ("stop").data), (("mute").data, ("volumemute").data)]

/-- `MediaKeyStrategy.applicable`. -/
def MediaKeyStrategy.applicable (goal : Goal) (context : ContextState) : Bool :=
  if goal.type ≠ GoalType.CONTROL_MEDIA then false
  else
    (MEDIA_ACTIONS.lookup (pyLower (goal.modifiers.action.getD []))).isSome

/-- `MediaKeyStrategy.plan`. -/
def MediaKeyStrategy.plan (goal : Goal) (context : ContextState) :
    HumanActionPlan × ContextState :=
  let action := pyLower (goal.modifiers.action.getD (("play_pause").data))
  let media_key := (MEDIA_ACTIONS.lookup action).getD (("playpause").data)
  (({ description := ("Media control: ").data ++ action } : HumanActionPlan).key
    [media_key], context)

/-- `SpotifyStrategy.applicable`: explicit "spotify" preference, or no
preference and the Context Store's learned music preference is "spotify". -/
def SpotifyStrategy.applicable (goal : Goal) (context : ContextState) : Bool :=
  if goal.type ≠ GoalType.PLAY_MEDIA then false
  else
    let pref := pyLower goal.preference
    if pref = ("spotify").data then true
    else if pref = [] &&
        get_preference context (("music").data) = JVal.s (("spotify").data) then true
    else false

/-- `SpotifyStrategy.plan`: builds the launch/search key sequence and — at
plan time — persists "spotify" as the preferred music app. -/
def SpotifyStrategy.plan (goal : Goal) (context : ContextState) :
    HumanActionPlan × ContextState :=
  let plan : HumanActionPlan :=
    { description := ("Play ").data ++ aposC ++ goal.content ++ aposC ++ (" on Spotify").data
      goal := some goal }
  let plan := ((((((plan.hotkey [("win").data]).wait 300).type_text
      (("spotify").data)).wait 200).key [("enter").data]).wait 3000)
  let plan :=
    if goal.content ≠ [] then
      ((((((plan.hotkey [("ctrl").data, ("l").data]).wait 200).type_text
          goal.content).wait 300).key [("enter").data]).wait 1000).key [("enter").data]
    else plan
  (plan, update_preference context (("music").data) (("spotify").data))

/-- `YouTubeStrategy.applicable`. -/
def YouTubeStrategy.applicable (goal : Goal) (context : ContextState) : Bool :=
  if goal.type ≠ GoalType.PLAY_MEDIA then false
  else
    let pref := pyLower goal.preference
    if pref = ("youtube").data || pref = ("yt").data then true
    else if containsSub (goal.modifiers.mtype.getD []) (("video").data) then true
    else false

/-- `YouTubeStrategy.plan`: at plan time persists "youtube" as the preferred
video app. -/
def YouTubeStrategy.plan (goal : Goal) (context : ContextState) :
    HumanActionPlan × ContextState :=
  let plan : HumanActionPlan :=
    { description := ("Play ").data ++ aposC ++ goal.content ++ aposC ++ (" on YouTube").data
      goal := some goal }
  let plan := ((((((plan.hotkey [("win").data]).wait 300).type_text
      (("chrome").data)).wait 200).key [("enter").data]).wait 2000)
  let plan := (plan.hotkey [("ctrl").data, ("l").data]).wait 200
  let plan :=
    if goal.content ≠ [] then
      plan.type_text ((("youtube.com/results?search_query=").data) ++
        pyReplace goal.content ' ' (("+").data))
    else plan.type_text (("youtube.com").data)
  let plan := (plan.key [("enter").data]).wait 2000
  let plan :=
    if goal.content ≠ [] then
      ((plan.key [("tab").data]).wait 200).key [("enter").data]
    else plan
  (plan, update_preference context (("video").data) (("youtube").data))

/-- `NetflixStrategy.applicable`. -/
def NetflixStrategy.applicable (goal : Goal) (context : ContextState) : Bool :=
  if goal.type ≠ GoalType.PLAY_MEDIA then false
  else pyLower goal.preference = ("netflix").data

/-- `NetflixStrategy.plan` (no preference update). -/
def NetflixStrategy.plan (goal : Goal) (context : ContextState) :
    HumanActionPlan × ContextState :=
  let plan : HumanActionPlan :=
    { description := ("Play ").data ++ aposC ++ goal.content ++ aposC ++ (" on Netflix").data
      goal := some goal }
  let plan := ((((((plan.hotkey [("win").data]).wait 300).type_text
      (("chrome").data)).wait 200).key [("enter").data]).wait 2000)
  let plan := (plan.hotkey [("ctrl").data, ("l").data]).wait 200
  let plan :=
    if goal.content ≠ [] then
      plan.type_text ((("netflix.com/search?q=").data) ++
        pyReplace goal.content ' ' (("%20").data))
    else plan.type_text (("netflix.com").data)
  (plan.key [("enter").data], context)

/-- `GmailStrategy.applicable`. -/
def GmailStrategy.applicable (goal : Goal) (context : ContextState) : Bool :=
  if goal.type ≠ GoalType.CHECK_EMAIL ∧ goal.type ≠ GoalType.SEND_EMAIL then false
  else
    let pref := pyLower goal.preference
    if pref = ("gmail").data || pref = ("google").data then true
    else if pref = [] &&
        get_preference context (("email").data) = JVal.s (("gmail").data) then true
    else false

/-- `GmailStrategy.plan`: at plan time persists "gmail" as the preferred
email app. -/
def GmailStrategy.plan (goal : Goal) (context : ContextState) :
    HumanActionPlan × ContextState :=
  let plan : HumanActionPlan := { description := ("Open Gmail").data, goal := some goal }
  let plan := ((((((plan.hotkey [("win").data]).wait 300).type_text
      (("chrome").data)).wait 200).key [("enter").data]).wait 2000)
  let plan := ((plan.hotkey [("ctrl").data, ("l").data]).wait 200).type_text
      (("mail.google.com").data)
  (plan.key [("enter").data], update_preference context (("email").data) (("gmail").data))

/-- `VolumeStrategy.applicable`. -/
def VolumeStrategy.applicable (goal : Goal) (context : ContextState) : Bool :=
  if goal.type ≠ GoalType.SYSTEM_CONTROL then false
  else
    let control := goal.modifiers.control.getD []
    control = ("volume").data || control = ("sound").data || control = ("audio").data

/-- `VolumeStrategy.plan`: mute/up/down key presses; an exact level (and any
other action) adds no steps. -/
def VolumeStrategy.plan (goal : Goal) (context : ContextState) :
    HumanActionPlan × ContextState :=
  let plan : HumanActionPlan := { description := ("Volume control").data, goal := some goal }
  let action := goal.modifiers.action.getD []
  let plan :=
    if action = ("mute").data then plan.key [("volumemute").data]
    else if action = ("up").data then
      (List.range 5).foldl (fun p _ => p.key [("volumeup").data]) plan
    else if action = ("down").data then
      (List.range 5).foldl (fun p _ => p.key [("volumedown").data]) plan
    else plan
  (plan, context)

/-- `BrightnessStrategy.applicable`. -/
def BrightnessStrategy.applicable (goal : Goal) (context : ContextState) : Bool :=
  if goal.type ≠ GoalType.SYSTEM_CONTROL then false
  else
    let control := goal.modifiers.control.getD []
    control = ("brightness").data || control = ("screen").data

/-- `BrightnessStrategy.plan`: empty plan, executed via fallback. -/
def BrightnessStrategy.plan (goal : Goal) (context : ContextState) :
    HumanActionPlan × ContextState :=
  ({ description := ("Brightness control").data, goal := some goal }, context)

/-- `OpenAppStrategy.applicable`. -/
def OpenAppStrategy.applicable (goal : Goal) (context : ContextState) : Bool :=
  goal.type = GoalType.OPEN_APP

/-- `OpenAppStrategy.plan`. -/
def OpenAppStrategy.plan (goal : Goal) (context : ContextState) :
    HumanActionPlan × ContextState :=
  let app_name := if goal.content ≠ [] then goal.content else goal.preference
  let plan : HumanActionPlan :=
    { description := ("Open ").data ++ app_name, goal := some goal }
  ((((((plan.hotkey [("win").data]).wait 300).type_text app_name).wait 300).key
    [("enter").data]), context)

/-- `CloseAppStrategy.applicable`. -/
def CloseAppStrategy.applicable (goal : Goal) (context : ContextState) : Bool :=
  goal.type = GoalType.CLOSE_APP

/-- `CloseAppStrategy.plan`. -/
def CloseAppStrategy.plan (goal : Goal) (context : ContextState) :
    HumanActionPlan × ContextState :=
  (({ description := ("Close ").data ++ goal.content, goal := some goal } :
      HumanActionPlan).hotkey [("alt").data, ("f4").data], context)

/-- `WebSearchStrategy.applicable`. -/
def WebSearchStrategy.applicable (goal : Goal) (context : ContextState) : Bool :=
  goal.type = GoalType.WEB_SEARCH

/-- `WebSearchStrategy.plan`. -/
def WebSearchStrategy.plan (goal : Goal) (context : ContextState) :
    HumanActionPlan × ContextState :=
  let plan : HumanActionPlan :=
    { description := ("Search: ").data ++ goal.content, goal := some goal }
  let plan := ((((((plan.hotkey [("win").data]).wait 300).type_text
      (("chrome").data)).wait 200).key [("enter").data]).wait 2000)
  let plan := ((plan.hotkey [("ctrl").data, ("l").data]).wait 200).type_text
      ((("google.com/search?q=").data) ++ pyReplace goal.content ' ' (("+").data))
  (plan.key [("enter").data], context)

/-- `OpenWebsiteStrategy.applicable`. -/
def OpenWebsiteStrategy.applicable (goal : Goal) (context : ContextState) : Bool :=
  goal.type = GoalType.OPEN_WEBSITE

/-- `OpenWebsiteStrategy.plan`. -/
def OpenWebsiteStrategy.plan (goal : Goal) (context : ContextState) :
    HumanActionPlan × ContextState :=
  let url := if (("http").data).isPrefixOf goal.content then goal.content
    else ("https://").data ++ goal.content
  let plan : HumanActionPlan :=
    { description := ("Open ").data ++ url, goal := some goal }
  let plan := ((((((plan.hotkey [("win").data]).wait 300).type_text
      (("chrome").data)).wait 200).key [("enter").data]).wait 2000)
  let plan := ((plan.hotkey [("ctrl").data, ("l").data]).wait 200).type_text url
  (plan.key [("enter").data], context)

/-- `StrategyPlanner.plan`: the plan of the first applicable strategy in
registration order, or none. -/
def plan (context : ContextState) (goal : Goal) : Option (HumanActionPlan × ContextState) :=
  if MediaKeyStrategy.applicable goal context then some (MediaKeyStrategy.plan goal context)
  else if SpotifyStrategy.applicable goal context then some (SpotifyStrategy.plan goal context)
  else if YouTubeStrategy.applicable goal context then some (YouTubeStrategy.plan goal context)
  else if NetflixStrategy.applicable goal context then some (NetflixStrategy.plan goal context)
  else if GmailStrategy.applicable goal context then some (GmailStrategy.plan goal context)
  else if VolumeStrategy.applicable goal context then some (VolumeStrategy.plan goal context)
  else if BrightnessStrategy.applicable goal context then
    some (BrightnessStrategy.plan goal context)
  else if OpenAppStrategy.applicable goal context then some (OpenAppStrategy.plan goal context)
  else if CloseAppStrategy.applicable goal context then some (CloseAppStrategy.plan goal context)
  else if WebSearchStrategy.applicable goal context then
    some (WebSearchStrategy.plan goal context)
  else if OpenWebsiteStrategy.applicable goal context then
    some (OpenWebsiteStrategy.plan goal context)
  else none

end StrategyPlanner

namespace GoalRouter

/-- `GoalRouter.route` with the goal already extracted (the extraction retry
loop is modelled by `extract_goal_retry`): conversation and unknown goals
short-circuit; otherwise the Strategy Planner runs — updating the context at
plan time — and the Plan Executor's result (`execSuccess`) only selects the
Done/Attempted message. `convResponse = none` models the conversation LLM
call raising. -/
def route (context : ContextEngine.ContextState) (goal : Goal) (execSuccess : Bool)
    (convResponse : Option Str) : (Str × Bool) × ContextEngine.ContextState :=
  if goal.type = GoalType.CONVERSATION then
    match convResponse with
    | some r => ((r, true), context)
    | none =>
      (((("I").data ++ aposC ++ ("m not sure how to respond to that.").data), false), context)
  else if goal.type = GoalType.UNKNOWN then
    ((("NEEDS_CODE_GENERATION").data, false), context)
  else
    match StrategyPlanner.plan context goal with
    | none => ((("NEEDS_FUNCTION_EXECUTOR").data, false), context)
    | some pc =>
      if execSuccess then (((("Done: ").data ++ pc.1.description), true), pc.2)
      else (((("Attempted: ").data ++ pc.1.description), false), pc.2)

end GoalRouter

/-- C1 (amended): preference learning is not gated on execution success — the
strategies persist the preference inside `plan`, before the Plan Executor
runs, so the Context Store state returned by `route` is identical whether the
execution succeeds or fails; in particular, whenever the Spotify strategy is
selected the preferred music app becomes "spotify" even on a failed
execution. -/
theorem preference_update_independent_of_execution
    (context : ContextEngine.ContextState) (goal : Goal) (convResponse : Option Str)
    (e1 e2 : Bool) :
    (GoalRouter.route context goal e1 convResponse).2 =
      (GoalRouter.route context goal e2 convResponse).2 ∧
    (StrategyPlanner.SpotifyStrategy.applicable goal context = true →
      (GoalRouter.route context goal e1 convResponse).2.preferred_music_app =
        ContextEngine.JVal.s (("spotify").data)) := by
  constructor
  · by_cases h1 : goal.type = GoalType.CONVERSATION
    · simp [GoalRouter.route, h1]
    · by_cases h2 : goal.type = GoalType.UNKNOWN
      · simp [GoalRouter.route, h1, h2]
      · simp only [GoalRouter.route]
        rw [if_neg h1, if_neg h1, if_neg h2, if_neg h2]
        cases hp : StrategyPlanner.plan context goal with
        | none => rfl
        | some pc => cases e1 <;> cases e2 <;> rfl
  · intro hy
    have ht : goal.type = GoalType.PLAY_MEDIA := by
      by_contra hne
      simp [StrategyPlanner.SpotifyStrategy.applicable, hne] at hy
    have h1 : ¬ goal.type = GoalType.CONVERSATION := by simp [ht]
    have h2 : ¬ goal.type = GoalType.UNKNOWN := by simp [ht]
    have hmk : StrategyPlanner.MediaKeyStrategy.applicable goal context = false := by
      simp [StrategyPlanner.MediaKeyStrategy.applicable, ht]
    simp only [GoalRouter.route]
    rw [if_neg h1, if_neg h2]
    rw [show StrategyPlanner.plan context goal =
        some (StrategyPlanner.SpotifyStrategy.plan goal context) from by
      simp [StrategyPlanner.plan, hmk, hy]]
    cases e1 <;>
      simp [StrategyPlanner.SpotifyStrategy.plan, ContextEngine.update_preference]

/-- Witness for `preference_update_independent_of_execution`: a "play jazz on
spotify" goal against a store that prefers "youtube", with a failed
execution, ends with preferred music app "spotify". -/
theorem preference_update_independent_of_execution_witness :
    (GoalRouter.route
        { ContextEngine.defaultState with
            preferred_music_app := ContextEngine.JVal.s (("youtube").data) }
        { type := GoalType.PLAY_MEDIA, content := ("jazz").data,
          preference := ("spotify").data } false none).2.preferred_music_app =
      ContextEngine.JVal.s (("spotify").data) :=
  (preference_update_independent_of_execution
    { ContextEngine.defaultState with
        preferred_music_app := ContextEngine.JVal.s (("youtube").data) }
    { type := GoalType.PLAY_MEDIA, content := ("jazz").data,
      preference := ("spotify").data } none false true).2 (by decide)

/-- C1 counterexample: routing the goal "play jazz on spotify" through the
Strategy Planner with a FAILED execution (route reports success=false) still
rewrites the Context Store's preferred music app from "youtube" to "spotify"
— a strategy whose plan fails to execute does change the preference field. -/
theorem preference_updated_on_failed_execution :
    ((GoalRouter.route
        { ContextEngine.defaultState with
            preferred_music_app := ContextEngine.JVal.s (("youtube").data) }
        { type := GoalType.PLAY_MEDIA, content := ("jazz").data,
          preference := ("spotify").data } false none).1.2 = false) ∧
    ((GoalRouter.route
        { ContextEngine.defaultState with
            preferred_music_app := ContextEngine.JVal.s (("youtube").data) }
        { type := GoalType.PLAY_MEDIA, content := ("jazz").data,
          preference := ("spotify").data } false none).2.preferred_music_app =
      ContextEngine.JVal.s (("spotify").data)) := by
  exact ⟨rfl, rfl⟩

namespace MultiTaskHandler

/-- The static part of the `Task` dataclass (`multi_task_handler.py`): the
split sub-command text and the indices of the tasks it depends on. -/
structure TaskIn where
  command : Str
  depends_on : List Nat := []
deriving DecidableEq

/-- The mutable part of a `Task`: the post-execution fields, initialized to
executed=False, success=False, result="". -/
structure TaskState where
  executed : Bool := false
  success : Bool := false
  result : Str := []
deriving DecidableEq

/-- The skip notice recorded for a task whose dependencies failed. -/
def skipMsg (command : Str) : Str :=
  ("Skipped (dependency failed): ").data ++ command

/-- Loop state of `execute_tasks`: the task states (mutated in place in the
source), the accumulated results list and the running all_success flag. -/
structure ExecAcc where
  states : List TaskState
  results : List Str
  all_success : Bool

/-- One iteration of the `for task in tasks` loop of
`MultiTaskHandler.execute_tasks`, processing index `i`: dependencies are met
when every index in depends_on refers to a task state that has executed and
succeeded; a met task runs through `_execute_single_task` (the `run` oracle,
returning (response, success)); otherwise the task is recorded as skipped
with executed=True, success=False and the skip notice, and all_success drops
to false. -/
def stepTask (run : Str → Str × Bool) (tasks : List TaskIn) (acc : ExecAcc) (i : Nat) :
    ExecAcc :=
  match tasks[i]? with
  | none => acc
  | some t =>
    let deps_met := t.depends_on.all (fun dep =>
      match acc.states[dep]? with
      | some s => s.executed && s.success
      | none => false)
    if deps_met then
      let r := run t.command
      { states := acc.states.set i { executed := true, success := r.2, result := r.1 }
        results := acc.results ++ [r.1]
        all_success := acc.all_success && r.2 }
    else
      { states := acc.states.set i
          { executed := true, success := false, result := skipMsg t.command }
        results := acc.results ++ [skipMsg t.command]
        all_success := false }

/-- Loop state after the first `n` iterations of `execute_tasks`. -/
def execStates (run : Str → Str × Bool) (tasks : List TaskIn) : Nat → ExecAcc
  | 0 => { states := List.replicate tasks.length {}, results := [], all_success := true }
  | n + 1 => stepTask run tasks (execStates run tasks n) n

/-- The task states after the whole loop. -/
def finalStates (run : Str → Str × Bool) (tasks : List TaskIn) : List TaskState :=
  (execStates run tasks tasks.length).states

/-- `MultiTaskHandler.execute_tasks`: processes every task in index order and
returns the non-empty results (joined with newlines in the source) together
with the overall success flag. -/
def execute_tasks (run : Str → Str × Bool) (tasks : List TaskIn) : List Str × Bool :=
  let acc := execStates run tasks tasks.length
  (acc.results.filter (fun r => r ≠ []), acc.all_success)

/-- Transitive dependency: `DependsOn tasks j i` says task `i` depends on
task `j` directly or through a chain of depends_on entries. -/
inductive DependsOn (tasks : List TaskIn) : Nat → Nat → Prop
  | direct (i j : Nat) (t : TaskIn) : tasks[i]? = some t → j ∈ t.depends_on →
      DependsOn tasks j i
  | step (j k i : Nat) (t : TaskIn) : DependsOn tasks j k → tasks[i]? = some t →
      k ∈ t.depends_on → DependsOn tasks j i

theorem take_set_succ {α : Type} (l : List α) (n : Nat) (v : α) (h : n < l.length) :
    (l.set n v).take (n + 1) = l.take n ++ [v] := by
  apply List.ext_getElem?
  intro m
  rcases Nat.lt_trichotomy m n with hm | hm | hm
  · rw [List.getElem?_take, if_pos (by omega), List.getElem?_set_ne (by omega),
      List.getElem?_append, if_pos (by simp [List.length_take]; omega),
      List.getElem?_take, if_pos hm]
  · subst hm
    rw [List.getElem?_take, if_pos (by omega), List.getElem?_set_self h,
      List.getElem?_append_right (by simp [List.length_take])]
    simp [List.length_take, Nat.min_eq_left (Nat.le_of_lt h)]
  · rw [List.getElem?_take, if_neg (by omega),
      List.getElem?_eq_none (by simp [List.length_take]; omega)]

theorem all_congr_mem {α : Type} {l : List α} {p q : α → Bool}
    (h : ∀ x ∈ l, p x = q x) : l.all p = l.all q := by
  induction l with
  | nil => rfl
  | cons a l ih =>
    simp only [List.all_cons, h a (by simp), ih (fun x hx => h x (by simp [hx]))]

theorem execStates_states_length (run : Str → Str × Bool) (tasks : List TaskIn) (n : Nat) :
    (execStates run tasks n).states.length = tasks.length := by
  induction n with
  | zero => simp [execStates]
  | succ n ih =>
    simp only [execStates, stepTask]
    split
    · exact ih
    · split <;> simpa using ih

theorem execStates_getElem_stable (run : Str → Str × Bool) (tasks : List TaskIn)
    (n m j : Nat) (hj : j < n) (hnm : n ≤ m) :
    (execStates run tasks m).states[j]? = (execStates run tasks n).states[j]? := by
  induction m with
  | zero =>
    have hn0 : n = 0 := by omega
    subst hn0
    rfl
  | succ m ih =>
    by_cases hc : n = m + 1
    · subst hc
      rfl
    · have hle : n ≤ m := by omega
      rw [← ih hle]
      have hjm : j < m + 1 := by omega
      simp only [execStates, stepTask]
      split
      · rfl
      · split <;> (dsimp only; rw [List.getElem?_set_ne (by omega)])

end MultiTaskHandler

namespace MultiTaskHandler

theorem finalStates_getElem (run : Str → Str × Bool) (tasks : List TaskIn)
    (hdep : ∀ (i : Nat) (t : TaskIn), tasks[i]? = some t → ∀ d ∈ t.depends_on, d < i)
    (i : Nat) (t : TaskIn) (ht : tasks[i]? = some t) :
    (finalStates run tasks)[i]? = some (
      if t.depends_on.all (fun dep =>
          match (finalStates run tasks)[dep]? with
          | some s => s.executed && s.success
          | none => false) then
        { executed := true, success := (run t.command).2, result := (run t.command).1 }
      else { executed := true, success := false, result := skipMsg t.command }) := by
  have hi : i < tasks.length := by
    by_contra hge
    rw [List.getElem?_eq_none (by omega)] at ht
    cases ht
  have hstab : (finalStates run tasks)[i]? = (execStates run tasks (i + 1)).states[i]? :=
    execStates_getElem_stable run tasks (i + 1) tasks.length i (by omega) (by omega)
  have hAll : (t.depends_on.all (fun dep =>
      match (execStates run tasks i).states[dep]? with
      | some s => s.executed && s.success
      | none => false)) = (t.depends_on.all (fun dep =>
      match (finalStates run tasks)[dep]? with
      | some s => s.executed && s.success
      | none => false)) := by
    apply all_congr_mem
    intro d hd
    have hdlt : d < i := hdep i t ht d hd
    rw [show (finalStates run tasks)[d]? = (execStates run tasks i).states[d]? from
      execStates_getElem_stable run tasks i tasks.length d (by omega) (by omega)]
  rw [hstab]
  simp only [execStates, stepTask, ht]
  rw [hAll]
  by_cases hc : (t.depends_on.all (fun dep =>
      match (finalStates run tasks)[dep]? with
      | some s => s.executed && s.success
      | none => false)) = true
  · rw [if_pos hc, if_pos hc]
    dsimp only
    rw [List.getElem?_set_self (by rw [execStates_states_length]; omega)]
  · rw [if_neg hc, if_neg hc]
    dsimp only
    rw [List.getElem?_set_self (by rw [execStates_states_length]; omega)]

end MultiTaskHandler

namespace MultiTaskHandler

theorem execStates_results (run : Str → Str × Bool) (tasks : List TaskIn)
    (n : Nat) (hn : n ≤ tasks.length) :
    (execStates run tasks n).results =
      ((execStates run tasks n).states.take n).map (fun s => s.result) := by
  induction n with
  | zero => simp [execStates]
  | succ n ih =>
    have hn' : n ≤ tasks.length := by omega
    have hlen : (execStates run tasks n).states.length = tasks.length :=
      execStates_states_length run tasks n
    obtain ⟨t, ht⟩ : ∃ t, tasks[n]? = some t :=
      ⟨tasks.get ⟨n, by omega⟩, List.getElem?_eq_getElem (by omega)⟩
    simp only [execStates, stepTask, ht]
    split
    · dsimp only
      rw [take_set_succ _ _ _ (by omega), List.map_append, ← ih hn']
      rfl
    · dsimp only
      rw [take_set_succ _ _ _ (by omega), List.map_append, ← ih hn']
      rfl

theorem execStates_all_success (run : Str → Str × Bool) (tasks : List TaskIn)
    (n : Nat) (hn : n ≤ tasks.length) :
    (execStates run tasks n).all_success =
      (List.range n).all (fun j =>
        match (execStates run tasks n).states[j]? with
        | some s => s.success
        | none => true) := by
  induction n with
  | zero => simp [execStates]
  | succ n ih =>
    have hn' : n ≤ tasks.length := by omega
    have hlen : (execStates run tasks n).states.length = tasks.length :=
      execStates_states_length run tasks n
    obtain ⟨t, ht⟩ : ∃ t, tasks[n]? = some t :=
      ⟨tasks.get ⟨n, by omega⟩, List.getElem?_eq_getElem (by omega)⟩
    have hcongr : ∀ (v : TaskState),
        (List.range n).all (fun j =>
          match ((execStates run tasks n).states.set n v)[j]? with
          | some s => s.success
          | none => true) =
        (List.range n).all (fun j =>
          match (execStates run tasks n).states[j]? with
          | some s => s.success
          | none => true) := by
      intro v
      apply all_congr_mem
      intro j hj
      have hjn : j < n := List.mem_range.mp hj
      rw [List.getElem?_set_ne (by omega)]
    simp only [execStates, stepTask, ht]
    split
    · dsimp only
      rw [List.range_succ, List.all_append, hcongr, ← ih hn']
      simp only [List.all_cons, List.all_nil, Bool.and_true]
      rw [List.getElem?_set_self (by omega)]
    · dsimp only
      rw [List.range_succ, List.all_append, hcongr]
      simp only [List.all_cons, List.all_nil, Bool.and_true]
      rw [List.getElem?_set_self (by omega)]
      simp

end MultiTaskHandler

/-- C3: multi-task dependency gating — the batch's results are the per-task
results in strict index order (skip notices included, empty strings dropped
by the final join); a task is run through the routing pipeline exactly when
every index in its depends_on list refers to a task that has already executed
and succeeded; otherwise it is recorded as skipped (success=false, skip
notice as its result); a failed task causes every transitive dependent to be
skipped; and the batch's overall success is true exactly when every per-task
success is true. Dependencies point backwards, as `split_tasks` produces
them. -/
theorem multi_task_dependency_gating (run : Str → Str × Bool)
    (tasks : List MultiTaskHandler.TaskIn)
    (hdep : ∀ (i : Nat) (t : MultiTaskHandler.TaskIn), tasks[i]? = some t →
      ∀ d ∈ t.depends_on, d < i) :
    ((MultiTaskHandler.execute_tasks run tasks).1 =
      ((MultiTaskHandler.finalStates run tasks).map (fun s => s.result)).filter
        (fun r => r ≠ [])) ∧
    (∀ (i : Nat) (t : MultiTaskHandler.TaskIn), tasks[i]? = some t →
      (∀ d ∈ t.depends_on, ∃ s, (MultiTaskHandler.finalStates run tasks)[d]? = some s ∧
        s.executed = true ∧ s.success = true) →
      (MultiTaskHandler.finalStates run tasks)[i]? =
        some { executed := true, success := (run t.command).2,
               result := (run t.command).1 }) ∧
    (∀ (i : Nat) (t : MultiTaskHandler.TaskIn), tasks[i]? = some t →
      (∃ d ∈ t.depends_on, ∃ s, (MultiTaskHandler.finalStates run tasks)[d]? = some s ∧
        s.success = false) →
      (MultiTaskHandler.finalStates run tasks)[i]? =
        some { executed := true, success := false,
               result := MultiTaskHandler.skipMsg t.command }) ∧
    (∀ (j : Nat) (s : MultiTaskHandler.TaskState),
      (MultiTaskHandler.finalStates run tasks)[j]? = some s → s.success = false →
      ∀ (i : Nat), MultiTaskHandler.DependsOn tasks j i →
        ∃ t, tasks[i]? = some t ∧
          (MultiTaskHandler.finalStates run tasks)[i]? =
            some { executed := true, success := false,
                   result := MultiTaskHandler.skipMsg t.command }) ∧
    ((MultiTaskHandler.execute_tasks run tasks).2 = true ↔
      ∀ (i : Nat) (s : MultiTaskHandler.TaskState),
        (MultiTaskHandler.finalStates run tasks)[i]? = some s → s.success = true) := by
  have hlen := MultiTaskHandler.execStates_states_length run tasks tasks.length
  have hB : ∀ (i : Nat) (t : MultiTaskHandler.TaskIn), tasks[i]? = some t →
      (∀ d ∈ t.depends_on, ∃ s, (MultiTaskHandler.finalStates run tasks)[d]? = some s ∧
        s.executed = true ∧ s.success = true) →
      (MultiTaskHandler.finalStates run tasks)[i]? =
        some { executed := true, success := (run t.command).2,
               result := (run t.command).1 } := by
    intro i t ht hmet
    have hc : (t.depends_on.all (fun dep =>
        match (MultiTaskHandler.finalStates run tasks)[dep]? with
        | some s => s.executed && s.success
        | none => false)) = true := by
      rw [List.all_eq_true]
      intro d hd
      obtain ⟨s, hs, hex, hsu⟩ := hmet d hd
      rw [hs]
      show (s.executed && s.success) = true
      rw [hex, hsu]
      rfl
    rw [MultiTaskHandler.finalStates_getElem run tasks hdep i t ht, if_pos hc]
  have hC : ∀ (i : Nat) (t : MultiTaskHandler.TaskIn), tasks[i]? = some t →
      (∃ d ∈ t.depends_on, ∃ s, (MultiTaskHandler.finalStates run tasks)[d]? = some s ∧
        s.success = false) →
      (MultiTaskHandler.finalStates run tasks)[i]? =
        some { executed := true, success := false,
               result := MultiTaskHandler.skipMsg t.command } := by
    intro i t ht hfail
    obtain ⟨d, hd, s, hs, hsf⟩ := hfail
    have hc : (t.depends_on.all (fun dep =>
        match (MultiTaskHandler.finalStates run tasks)[dep]? with
        | some s => s.executed && s.success
        | none => false)) = false := by
      cases hAllc : (t.depends_on.all (fun dep =>
          match (MultiTaskHandler.finalStates run tasks)[dep]? with
          | some s => s.executed && s.success
          | none => false)) with
      | false => rfl
      | true =>
        have hm := List.all_eq_true.mp hAllc d hd
        rw [hs] at hm
        simp [hsf] at hm
    rw [MultiTaskHandler.finalStates_getElem run tasks hdep i t ht,
      if_neg (by simp [hc])]
  have hD : ∀ (i j : Nat), MultiTaskHandler.DependsOn tasks j i →
      ∀ (s : MultiTaskHandler.TaskState),
        (MultiTaskHandler.finalStates run tasks)[j]? = some s → s.success = false →
      ∃ t, tasks[i]? = some t ∧
        (MultiTaskHandler.finalStates run tasks)[i]? =
          some { executed := true, success := false,
                 result := MultiTaskHandler.skipMsg t.command } := by
    intro i j hdp
    induction hdp with
    | direct i' j' t' ht' hmem =>
      intro s hjs hsf
      exact ⟨t', ht', hC i' t' ht' ⟨j', hmem, s, hjs, hsf⟩⟩
    | step j' k i' t' hjk ht' hmem ih =>
      intro s hjs hsf
      obtain ⟨tk, htk, hFk⟩ := ih s hjs hsf
      exact ⟨t', ht', hC i' t' ht' ⟨k, hmem, _, hFk, rfl⟩⟩
  refine ⟨?_, hB, hC, fun j s hjs hsf i hdp => hD i j hdp s hjs hsf, ?_⟩
  · have hres := MultiTaskHandler.execStates_results run tasks tasks.length (le_refl _)
    have htake : (MultiTaskHandler.execStates run tasks tasks.length).states.take
        tasks.length = (MultiTaskHandler.execStates run tasks tasks.length).states :=
      List.take_of_length_le (le_of_eq hlen)
    simp only [MultiTaskHandler.execute_tasks]
    rw [hres, htake]
    rfl
  · have hs := MultiTaskHandler.execStates_all_success run tasks tasks.length (le_refl _)
    simp only [MultiTaskHandler.execute_tasks]
    rw [hs, List.all_eq_true]
    constructor
    · intro hall i s hFi
      have hilt : i < tasks.length := by
        by_contra hge
        rw [List.getElem?_eq_none (by rw [MultiTaskHandler.finalStates, hlen]; omega)] at hFi
        cases hFi
      have hm := hall i (List.mem_range.mpr hilt)
      simp only at hm
      rw [show (MultiTaskHandler.execStates run tasks tasks.length).states[i]? =
        some s from hFi] at hm
      exact hm
    · intro hallP j hj
      have hjl : j < tasks.length := List.mem_range.mp hj
      obtain ⟨s, hFj⟩ : ∃ s, (MultiTaskHandler.finalStates run tasks)[j]? = some s :=
        ⟨(MultiTaskHandler.finalStates run tasks).get
            ⟨j, by rw [MultiTaskHandler.finalStates, hlen]; omega⟩,
          List.getElem?_eq_getElem (by rw [MultiTaskHandler.finalStates, hlen]; omega)⟩
      rw [show (MultiTaskHandler.execStates run tasks tasks.length).states[j]? =
        some s from hFj]
      exact hallP j s hFj

/-- Witness for `multi_task_dependency_gating`: in the batch "open chrome" /
"search weather" (depends on task 0) / "type hello" (depends on task 1), when
task 0's pipeline run fails, task 2 — a transitive dependent — is recorded as
skipped with the skip notice. -/
theorem multi_task_dependency_gating_witness :
    (MultiTaskHandler.finalStates
        (fun cmd => ((("ran ").data ++ cmd), decide (cmd ≠ ("open chrome").data)))
        [{ command := ("open chrome").data },
         { command := ("search weather").data, depends_on := [0] },
         { command := ("type hello").data, depends_on := [1] }])[2]? =
      some { executed := true, success := false,
             result := MultiTaskHandler.skipMsg (("type hello").data) } := by
  have hdep : ∀ (i : Nat) (t : MultiTaskHandler.TaskIn),
      ([{ command := ("open chrome").data },
        { command := ("search weather").data, depends_on := [0] },
        { command := ("type hello").data, depends_on := [1] }] :
        List MultiTaskHandler.TaskIn)[i]? = some t → ∀ d ∈ t.depends_on, d < i := by
    intro i t ht d hd
    have hi : i < 3 := by
      by_contra hge
      rw [List.getElem?_eq_none (by simp; omega)] at ht
      cases ht
    interval_cases i
    · simp only [List.getElem?_cons_zero, Option.some.injEq] at ht
      subst ht
      simp at hd
    · simp only [List.getElem?_cons_succ, List.getElem?_cons_zero, Option.some.injEq] at ht
      subst ht
      simp at hd
      omega
    · simp only [List.getElem?_cons_succ, List.getElem?_cons_zero, Option.some.injEq] at ht
      subst ht
      simp at hd
      omega
  have h := multi_task_dependency_gating
    (fun cmd => ((("ran ").data ++ cmd), decide (cmd ≠ ("open chrome").data)))
    [{ command := ("open chrome").data },
     { command := ("search weather").data, depends_on := [0] },
     { command := ("type hello").data, depends_on := [1] }] hdep
  obtain ⟨t2, ht2, hF2⟩ := h.2.2.2.1 0
    { executed := true, success := false, result := ("ran open chrome").data }
    (by rfl) (by rfl) 2
    (MultiTaskHandler.DependsOn.step 0 1 2
      { command := ("type hello").data, depends_on := [1] }
      (MultiTaskHandler.DependsOn.direct 1 0
        { command := ("search weather").data, depends_on := [0] } rfl (by simp))
      rfl (by simp))
  simp only [List.getElem?_cons_succ, List.getElem?_cons_zero, Option.some.injEq] at ht2
  subst ht2
  exact hF2
